import Mathlib

/-!
Verification of the AppNotificationBuilder Button and Text builders
(src/dev/AppNotifications/AppNotificationBuilder/Button.cpp and Text.h).

The builders are shallowly embedded: a builder object becomes a Lean
structure, each C++ method becomes a function from the structure to the
structure (setters return the mutated receiver, mirroring the fluent
`return *this`), and `GetXml` becomes a pure function to `String`
(the method writes only its local `xml` variable, so its post-state is
the unchanged receiver, made explicit by `GetXmlState`).
-/

/-- The `ButtonStyle` enum: Default, Success, Critical. -/
inductive ButtonStyle where
  | Default
  | Success
  | Critical
deriving DecidableEq, Repr

/-- Opaque URI value type (`winrt::Windows::Foundation::Uri`): all the
builder uses is its string conversion. -/
structure Uri where
  uriString : String
deriving DecidableEq, Repr

/-- `Uri::ToString()`: the string conversion of the opaque URI. -/
def Uri.ToString (u : Uri) : String := u.uriString

/-- The Button builder state: content plus the accumulated optional
fields.  The argument mapping (an opaque insertion-ordered
string-to-string map in the source) is embedded as an association list
in insertion order. -/
structure Button where
  m_content : String
  m_arguments : List (String × String)
  m_iconUri : Option Uri
  m_protocolUri : Option Uri
  m_toolTip : String
  m_inputId : String
  m_useContextMenuPlacement : Bool
  m_buttonStyle : ButtonStyle
deriving DecidableEq, Repr

/-- `Button::Button(content)`: stores the content; every other field has
its default (empty mapping, no URIs, empty strings, flag false, style
Default). -/
def Button.new (content : String) : Button :=
  { m_content := content
    m_arguments := []
    m_iconUri := none
    m_protocolUri := none
    m_toolTip := ""
    m_inputId := ""
    m_useContextMenuPlacement := false
    m_buttonStyle := ButtonStyle.Default }

/-- Modelled from the spec: the opaque ordered mapping's
insert-with-overwrite (`m_arguments.Insert(key, value)`; the map type
itself is not under src/).  Per the spec, if the key already exists its
value is replaced in place (order of first insertion preserved);
otherwise the pair is appended at the end of the insertion order. -/
def insertArg (k v : String) : List (String × String) → List (String × String)
  | [] => [(k, v)]
  | p :: rest => if p.1 = k then (k, v) :: rest else p :: insertArg k v rest

/-- Lookup in the association list embedding of the mapping: value of
the first pair whose key matches. -/
def lookupArg (k : String) : List (String × String) → Option String
  | [] => none
  | p :: rest => if p.1 = k then some p.2 else lookupArg k rest

/-- `Button::AddArgument(key, value)`. -/
def Button.AddArgument (b : Button) (key value : String) : Button :=
  { b with m_arguments := insertArg key value b.m_arguments }

/-- `Button::SetIconUri(iconUri)`. -/
def Button.SetIconUri (b : Button) (iconUri : Uri) : Button :=
  { b with m_iconUri := some iconUri }

/-- `Button::UseProtocolActivation(protocolUri)`. -/
def Button.UseProtocolActivation (b : Button) (protocolUri : Uri) : Button :=
  { b with m_protocolUri := some protocolUri }

/-- `Button::SetToolTip(toolTip)`. -/
def Button.SetToolTip (b : Button) (toolTip : String) : Button :=
  { b with m_toolTip := toolTip }

/-- `Button::SetInputId(inputId)`. -/
def Button.SetInputId (b : Button) (inputId : String) : Button :=
  { b with m_inputId := inputId }

/-- `Button::UseContextMenuPlacement()`. -/
def Button.UseContextMenuPlacement (b : Button) : Button :=
  { b with m_useContextMenuPlacement := true }

/-- `Button::SetButtonStyle(buttonStyle)`. -/
def Button.SetButtonStyle (b : Button) (buttonStyle : ButtonStyle) : Button :=
  { b with m_buttonStyle := buttonStyle }

/-- `Button::GetXml()`: the literal translation of the method body,
including the duplicated `m_buttonStyle == ButtonStyle::Success` test on
the else-if branch. -/
def Button.GetXml (b : Button) : String :=
  let xml := "<action content=" ++ b.m_content ++ " arguments="
  let xml := b.m_arguments.foldl (fun xml pair => xml ++ pair.1 ++ "&" ++ pair.2 ++ ";") xml
  let xml := if b.m_useContextMenuPlacement then
      xml ++ " placement=\"contextMenu\""
    else xml
  let xml := match b.m_iconUri with
    | some u => xml ++ " imageUri=" ++ u.ToString
    | none => xml
  let xml := match b.m_protocolUri with
    | some u => xml ++ " activationType=\"protocol\" protocolActivationTargetApplicationPfn=" ++ u.ToString
    | none => xml
  let xml := if b.m_inputId ≠ "" then xml ++ " hint-inputId=" ++ b.m_inputId else xml
  let xml := if b.m_buttonStyle = ButtonStyle.Success then
      xml ++ " hint-buttonStyle=\"success\""
    else if b.m_buttonStyle = ButtonStyle.Success then
      xml ++ " hint-buttonStyle=\"critical\""
    else xml
  let xml := if b.m_toolTip ≠ "" then xml ++ " hint-toolTip=" ++ b.m_toolTip else xml
  xml ++ " />"

/-- The method call `GetXml()` as a state transformer: the post-state
paired with the returned string.  The body writes no member field (only
the local `xml`), so the post-state is the receiver unchanged. -/
def Button.GetXmlState (b : Button) : Button × String :=
  (b, b.GetXml)

/-- The Text builder state (Text.h): content, language, and the two
display-hint flags. -/
structure Text where
  m_content : String
  m_language : String
  m_useCallScenarioAlign : Bool
  m_useAttributionText : Bool
deriving DecidableEq

/-- Modelled from the spec: `Text::Text(content)` (Text.cpp is not under
src/; Text.h only declares the constructor) stores the required content,
with language empty and both flags false. -/
def Text.new (content : String) : Text :=
  { m_content := content
    m_language := ""
    m_useCallScenarioAlign := false
    m_useAttributionText := false }

/-- Modelled from the spec: `Text::SetLanguage(language)` (body not in
src/) overwrites the language field and returns the builder. -/
def Text.SetLanguage (t : Text) (language : String) : Text :=
  { t with m_language := language }

/-- Modelled from the spec: `Text::UseCallScenarioAlign()` (body not in
src/) sets its flag true and returns the builder. -/
def Text.UseCallScenarioAlign (t : Text) : Text :=
  { t with m_useCallScenarioAlign := true }

/-- Modelled from the spec: `Text::UseAttributionText()` (body not in
src/) sets its flag true and returns the builder. -/
def Text.UseAttributionText (t : Text) : Text :=
  { t with m_useAttributionText := true }

/-- Modelled from the spec: `Text::GetXml()` (body not in src/) is a pure
read emitting a text element with content always present, `lang=` iff the
language is non-empty, and a fixed hint attribute per flag.  The exact
attribute names are not visible in the excerpt, so placeholder names
mirror Button's conditional-attribute pattern. -/
def Text.GetXml (t : Text) : String :=
  "<text" ++ (if t.m_language ≠ "" then " lang=" ++ t.m_language else "") ++
    (if t.m_useCallScenarioAlign then " hint-callScenarioCenterAlign=\"true\"" else "") ++
    (if t.m_useAttributionText then " placement=\"attribution\"" else "") ++
    ">" ++ t.m_content ++ "</text>"

/-- The method call `Text::GetXml()` as a state transformer: post-state
paired with the returned string (a pure read, per the spec). -/
def Text.GetXmlState (t : Text) : Text × String :=
  (t, t.GetXml)

/-! ## The serialized form, segment by segment

The following definitions restate, in the spec's words, the attribute
segments that §4.1 of the spec says `GetXml` emits, in its order; the
decomposition lemma below proves the source translation equal to their
concatenation. -/

/-- The `arguments=` attribute value, per the spec's words: the
concatenation, for every key/value pair in insertion order, of the
literal pattern `key&value;`, with no separator between pairs; empty for
the empty mapping. -/
def argsVal : List (String × String) → String
  | [] => ""
  | p :: rest => p.1 ++ "&" ++ p.2 ++ ";" ++ argsVal rest

/-- Spec segment 3: `placement="contextMenu"`, present iff the
context-menu placement flag is true. -/
def Button.placementSeg (b : Button) : String :=
  if b.m_useContextMenuPlacement then " placement=\"contextMenu\"" else ""

/-- Spec segment 4: `imageUri=`, present iff an icon URI was set. -/
def Button.imageSeg (b : Button) : String :=
  match b.m_iconUri with
  | some u => " imageUri=" ++ u.ToString
  | none => ""

/-- Spec segment 5: `activationType="protocol"` with the target PFN,
present iff a protocol URI was set. -/
def Button.protocolSeg (b : Button) : String :=
  match b.m_protocolUri with
  | some u => " activationType=\"protocol\" protocolActivationTargetApplicationPfn=" ++ u.ToString
  | none => ""

/-- Spec segment 6: `hint-inputId=`, present iff the input id is
non-empty. -/
def Button.inputIdSeg (b : Button) : String :=
  if b.m_inputId ≠ "" then " hint-inputId=" ++ b.m_inputId else ""

/-- Spec segment 7: the style attribute.  Per the spec (and the net
effect of the source's duplicated condition), `hint-buttonStyle="success"`
is present iff the style is Success, and nothing is ever emitted for
Critical. -/
def Button.styleSeg (b : Button) : String :=
  if b.m_buttonStyle = ButtonStyle.Success then " hint-buttonStyle=\"success\"" else ""

/-- Spec segment 8: `hint-toolTip=`, present iff the tooltip is
non-empty. -/
def Button.toolTipSeg (b : Button) : String :=
  if b.m_toolTip ≠ "" then " hint-toolTip=" ++ b.m_toolTip else ""

/-- The argument loop of `GetXml` concatenates `argsVal` after its
initial accumulator. -/
theorem foldl_args_eq (l : List (String × String)) (init : String) :
    l.foldl (fun xml pair => xml ++ pair.1 ++ "&" ++ pair.2 ++ ";") init =
      init ++ argsVal l := by
  induction l generalizing init with
  | nil => simp [argsVal]
  | cons p rest ih =>
      rw [List.foldl_cons, ih]
      simp [argsVal, String.append_assoc]

/-- `GetXml` decomposed into the spec's ordered segments. -/
theorem Button.getXml_decomp (b : Button) :
    b.GetXml =
      "<action content=" ++ b.m_content ++ " arguments=" ++ argsVal b.m_arguments ++
        b.placementSeg ++ b.imageSeg ++ b.protocolSeg ++ b.inputIdSeg ++
        b.styleSeg ++ b.toolTipSeg ++ " />" := by
  simp only [Button.GetXml, Button.placementSeg, Button.imageSeg, Button.protocolSeg,
    Button.inputIdSeg, Button.styleSeg, Button.toolTipSeg]
  rw [foldl_args_eq]
  cases b.m_iconUri <;> cases b.m_protocolUri <;>
    by_cases h1 : b.m_useContextMenuPlacement <;>
    by_cases h2 : b.m_inputId = "" <;>
    by_cases h3 : b.m_buttonStyle = ButtonStyle.Success <;>
    by_cases h4 : b.m_toolTip = "" <;>
    simp [h1, h2, h3, h4, Uri.ToString, ← String.append_assoc, String.append_empty]

/-! ## Properties of the argument mapping -/

/-- Keys after insertion: unchanged when the key is already present,
appended at the end when the key is fresh. -/
theorem keys_insertArg (k v : String) (l : List (String × String)) :
    (insertArg k v l).map Prod.fst =
      if k ∈ l.map Prod.fst then l.map Prod.fst else l.map Prod.fst ++ [k] := by
  induction l with
  | nil => simp [insertArg]
  | cons p rest ih =>
      by_cases hp : p.1 = k
      · simp [insertArg, hp]
      · by_cases hk : k ∈ rest.map Prod.fst <;>
          simp [insertArg, hp, hk, ih, Ne.symm hp]

/-- Lookup after insertion: the inserted key maps to the new value and
every other key is untouched. -/
theorem lookupArg_insertArg (k v k' : String) (l : List (String × String)) :
    lookupArg k' (insertArg k v l) =
      if k' = k then some v else lookupArg k' l := by
  induction l with
  | nil =>
      by_cases h : k' = k
      · simp [insertArg, lookupArg, h]
      · simp [insertArg, lookupArg, h, Ne.symm h]
  | cons p rest ih =>
      by_cases hp : p.1 = k
      · by_cases h : k' = k
        · simp [insertArg, lookupArg, hp, h]
        · simp [insertArg, lookupArg, hp, h, Ne.symm h]
      · by_cases hq : p.1 = k'
        · have hk' : ¬(k' = k) := by rw [hq] at hp; exact hp
          simp [insertArg, lookupArg, hp, hq, hk']
        · simp [insertArg, lookupArg, hp, hq, ih]

/-- Inserting a fresh key appends the pair at the end. -/
theorem insertArg_not_mem (k v : String) (l : List (String × String))
    (h : k ∉ l.map Prod.fst) :
    insertArg k v l = l ++ [(k, v)] := by
  induction l with
  | nil => rfl
  | cons p rest ih =>
      simp only [List.map_cons, List.mem_cons] at h
      push_neg at h
      simp [insertArg, Ne.symm h.1, ih h.2]

/-! ## Sequences of method calls -/

/-- One Button method call, for stating properties of arbitrary call
sequences. -/
inductive ButtonOp where
  | addArgument (key value : String)
  | setIconUri (u : Uri)
  | useProtocolActivation (u : Uri)
  | setToolTip (t : String)
  | setInputId (i : String)
  | useContextMenuPlacement
  | setButtonStyle (s : ButtonStyle)
  | getXml

/-- The effect of one Button method call on the builder state
(`getXml`'s post-state is `GetXmlState`'s first component). -/
def ButtonOp.apply (b : Button) : ButtonOp → Button
  | addArgument key value => b.AddArgument key value
  | setIconUri u => b.SetIconUri u
  | useProtocolActivation u => b.UseProtocolActivation u
  | setToolTip t => b.SetToolTip t
  | setInputId i => b.SetInputId i
  | useContextMenuPlacement => b.UseContextMenuPlacement
  | setButtonStyle s => b.SetButtonStyle s
  | getXml => b.GetXmlState.1

/-- The state after a sequence of Button method calls. -/
def Button.applyOps (b : Button) (ops : List ButtonOp) : Button :=
  ops.foldl ButtonOp.apply b

/-- One Text method call. -/
inductive TextOp where
  | setLanguage (lang : String)
  | useCallScenarioAlign
  | useAttributionText
  | getXml

/-- The effect of one Text method call on the builder state. -/
def TextOp.apply (t : Text) : TextOp → Text
  | setLanguage lang => t.SetLanguage lang
  | useCallScenarioAlign => t.UseCallScenarioAlign
  | useAttributionText => t.UseAttributionText
  | getXml => t.GetXmlState.1

/-- The state after a sequence of Text method calls. -/
def Text.applyOps (t : Text) (ops : List TextOp) : Text :=
  ops.foldl TextOp.apply t

/-- No single Button method call changes the content field. -/
theorem buttonOp_preserves_content (b : Button) (op : ButtonOp) :
    (ButtonOp.apply b op).m_content = b.m_content := by
  cases op <;> rfl

/-- No sequence of Button method calls changes the content field. -/
theorem applyOps_preserves_content (ops : List ButtonOp) (b : Button) :
    (b.applyOps ops).m_content = b.m_content := by
  induction ops generalizing b with
  | nil => rfl
  | cons op rest ih =>
      show ((ButtonOp.apply b op).applyOps rest).m_content = b.m_content
      rw [ih, buttonOp_preserves_content]

/-- No single Text method call changes the content field. -/
theorem textOp_preserves_content (t : Text) (op : TextOp) :
    (TextOp.apply t op).m_content = t.m_content := by
  cases op <;> rfl

/-- No sequence of Text method calls changes the content field. -/
theorem textApplyOps_preserves_content (ops : List TextOp) (t : Text) :
    (t.applyOps ops).m_content = t.m_content := by
  induction ops generalizing t with
  | nil => rfl
  | cons op rest ih =>
      show ((TextOp.apply t op).applyOps rest).m_content = t.m_content
      rw [ih, textOp_preserves_content]

/-- Substring containment: `t` contains `p` iff `t` splits as
`pre ++ p ++ post` for some strings `pre`, `post`. -/
def containsStr (t p : String) : Prop :=
  ∃ pre post : String, t = pre ++ p ++ post

/-! ## The claims -/

/-- Claim C1: for every Button state, `GetXml` returns the string that
begins with `<action content=` followed by the content string, then the
`arguments=` attribute value, and then the remaining attribute segments
in exactly this relative order — placement, imageUri,
activationType/protocolActivationTargetApplicationPfn, hint-inputId,
hint-buttonStyle, hint-toolTip — each present only when its governing
condition holds, ending with ` />`. -/
theorem button_getXml_attribute_order (b : Button) :
    b.GetXml =
      "<action content=" ++ b.m_content ++ " arguments=" ++ argsVal b.m_arguments ++
        b.placementSeg ++ b.imageSeg ++ b.protocolSeg ++ b.inputIdSeg ++
        b.styleSeg ++ b.toolTipSeg ++ " />" :=
  Button.getXml_decomp b

/-- Claim C2 fails as stated: a reachable Button — here one whose
content is the literal `hint-buttonStyle="critical"` and on which
`SetButtonStyle(Critical)` was called — produces `GetXml` output that
does contain the substring `hint-buttonStyle="critical"`, because field
strings are interpolated verbatim into the XML. -/
theorem button_critical_substring_counterexample :
    containsStr
      (((Button.new "hint-buttonStyle=\"critical\"").SetButtonStyle
          ButtonStyle.Critical).GetXml)
      "hint-buttonStyle=\"critical\"" :=
  ⟨"<action content=", " arguments= />", by decide⟩

/-- Claim C2 (amended): at the level of what the serializer emits the
claim holds — for every Button, `GetXml`'s style segment is exactly
` hint-buttonStyle="success"` when the style field is Success and empty
otherwise, so the critical branch never contributes, and a Button on
which `SetButtonStyle(Critical)` was called serializes identically to
one with style Default.  (The substring form of the claim fails only
because arbitrary field strings may themselves contain the literal.) -/
theorem button_style_emission (b : Button) :
    (b.GetXml =
      "<action content=" ++ b.m_content ++ " arguments=" ++ argsVal b.m_arguments ++
        b.placementSeg ++ b.imageSeg ++ b.protocolSeg ++ b.inputIdSeg ++
        (if b.m_buttonStyle = ButtonStyle.Success then " hint-buttonStyle=\"success\"" else "") ++
        b.toolTipSeg ++ " />") ∧
    (b.SetButtonStyle ButtonStyle.Critical).GetXml =
      (b.SetButtonStyle ButtonStyle.Default).GetXml := by
  constructor
  · rw [Button.getXml_decomp]
    rfl
  · rw [Button.getXml_decomp, Button.getXml_decomp]
    rfl

/-- Claim C3: the `arguments=` attribute value emitted by `GetXml` is
the concatenation, over the key/value pairs of the mapping in insertion
order, of the literal pattern `key&value;` with no separator between
pairs (`argsVal`), and it is empty when the mapping is empty. -/
theorem button_arguments_value (b : Button) :
    (b.GetXml =
      "<action content=" ++ b.m_content ++ " arguments=" ++ argsVal b.m_arguments ++
        (b.placementSeg ++ b.imageSeg ++ b.protocolSeg ++ b.inputIdSeg ++
          b.styleSeg ++ b.toolTipSeg ++ " />")) ∧
    argsVal [] = "" ∧
    ∀ k v rest, argsVal ((k, v) :: rest) = k ++ "&" ++ v ++ ";" ++ argsVal rest := by
  refine ⟨?_, rfl, fun k v rest => rfl⟩
  rw [Button.getXml_decomp]
  simp [String.append_assoc]

/-- Claim C4: the call chain
`Button("Accept").AddArgument("action","accept").SetInputId("reply").GetXml()`
returns exactly
`<action content=Accept arguments=action&accept; hint-inputId=reply />`. -/
theorem button_example_accept_reply :
    (((Button.new "Accept").AddArgument "action" "accept").SetInputId "reply").GetXml =
      "<action content=Accept arguments=action&accept; hint-inputId=reply />" := by
  decide

/-- Claim C5: two consecutive `GetXml` calls with no intervening setter
calls return identical strings (the second call runs on the first
call's post-state). -/
theorem button_getXml_idempotent (b : Button) :
    b.GetXmlState.2 = (Button.GetXmlState b.GetXmlState.1).2 :=
  rfl

/-- Claim C6: `GetXml` leaves the builder state unchanged (a pure read),
and there is no lock-after-serialize: each setter invoked on the
post-state of `GetXml` still updates its field, and a subsequent
`GetXml` produces the same output as if `GetXml` had never been
called. -/
theorem button_getXml_frame (b : Button) :
    b.GetXmlState.1 = b ∧
    (∀ k v, (b.GetXmlState.1.AddArgument k v).m_arguments = insertArg k v b.m_arguments ∧
      (b.GetXmlState.1.AddArgument k v).GetXml = (b.AddArgument k v).GetXml) ∧
    (∀ u, (b.GetXmlState.1.SetIconUri u).m_iconUri = some u ∧
      (b.GetXmlState.1.SetIconUri u).GetXml = (b.SetIconUri u).GetXml) ∧
    (∀ u, (b.GetXmlState.1.UseProtocolActivation u).m_protocolUri = some u ∧
      (b.GetXmlState.1.UseProtocolActivation u).GetXml = (b.UseProtocolActivation u).GetXml) ∧
    (∀ t, (b.GetXmlState.1.SetToolTip t).m_toolTip = t ∧
      (b.GetXmlState.1.SetToolTip t).GetXml = (b.SetToolTip t).GetXml) ∧
    (∀ i, (b.GetXmlState.1.SetInputId i).m_inputId = i ∧
      (b.GetXmlState.1.SetInputId i).GetXml = (b.SetInputId i).GetXml) ∧
    (b.GetXmlState.1.UseContextMenuPlacement.m_useContextMenuPlacement = true ∧
      b.GetXmlState.1.UseContextMenuPlacement.GetXml = b.UseContextMenuPlacement.GetXml) ∧
    (∀ s, (b.GetXmlState.1.SetButtonStyle s).m_buttonStyle = s ∧
      (b.GetXmlState.1.SetButtonStyle s).GetXml = (b.SetButtonStyle s).GetXml) :=
  ⟨rfl, fun _ _ => ⟨rfl, rfl⟩, fun _ => ⟨rfl, rfl⟩, fun _ => ⟨rfl, rfl⟩,
   fun _ => ⟨rfl, rfl⟩, fun _ => ⟨rfl, rfl⟩, ⟨rfl, rfl⟩, fun _ => ⟨rfl, rfl⟩⟩

/-- Claim C7: `AddArgument` overwrites the value of an existing key (last
write wins) while the key keeps the position of its first insertion in
the serialization order, and appends a fresh key at the end of the
insertion order. -/
theorem button_addArgument_insert (b : Button) (k v : String) :
    ((b.AddArgument k v).m_arguments.map Prod.fst =
      if k ∈ b.m_arguments.map Prod.fst then b.m_arguments.map Prod.fst
      else b.m_arguments.map Prod.fst ++ [k]) ∧
    (∀ k', lookupArg k' (b.AddArgument k v).m_arguments =
      if k' = k then some v else lookupArg k' b.m_arguments) ∧
    (k ∉ b.m_arguments.map Prod.fst →
      (b.AddArgument k v).m_arguments = b.m_arguments ++ [(k, v)]) :=
  ⟨keys_insertArg k v b.m_arguments,
   fun k' => lookupArg_insertArg k v k' b.m_arguments,
   fun h => insertArg_not_mem k v b.m_arguments h⟩

/-- Witness for claim C7 at a concrete input: adding the fresh key
`action` to a freshly constructed Button appends the pair. -/
theorem button_addArgument_insert_witness :
    ((Button.new "c").AddArgument "action" "accept").m_arguments =
      (Button.new "c").m_arguments ++ [("action", "accept")] :=
  (button_addArgument_insert (Button.new "c") "action" "accept").2.2 (by decide)

/-- Claim C8: every configuration operation of Button and of Text is a
total function: applied to arbitrary inputs it stores the given value
(or sets its flag true) and yields the updated builder — the embedding
of the fluent `return *this` — with no failure outcome of any kind. -/
theorem builder_operations_total (b : Button) (x : Text) (k v : String)
    (u p : Uri) (t i lang : String) (st : ButtonStyle) :
    ((b.AddArgument k v).m_arguments = insertArg k v b.m_arguments ∧
      lookupArg k (b.AddArgument k v).m_arguments = some v) ∧
    (b.SetIconUri u).m_iconUri = some u ∧
    (b.UseProtocolActivation p).m_protocolUri = some p ∧
    (b.SetToolTip t).m_toolTip = t ∧
    (b.SetInputId i).m_inputId = i ∧
    b.UseContextMenuPlacement.m_useContextMenuPlacement = true ∧
    (b.SetButtonStyle st).m_buttonStyle = st ∧
    (x.SetLanguage lang).m_language = lang ∧
    x.UseCallScenarioAlign.m_useCallScenarioAlign = true ∧
    x.UseAttributionText.m_useAttributionText = true := by
  refine ⟨⟨rfl, ?_⟩, rfl, rfl, rfl, rfl, rfl, rfl, rfl, rfl, rfl⟩
  simp [Button.AddArgument, lookupArg_insertArg]

/-- Claim C9: for Button and Text alike, the content field is set at
construction and no sequence of subsequent operations — any setters and
`GetXml` calls, in any order and number — ever changes it. -/
theorem builder_content_immutable (c tc : String)
    (ops : List ButtonOp) (tops : List TextOp) :
    ((Button.new c).applyOps ops).m_content = c ∧
    ((Text.new tc).applyOps tops).m_content = tc :=
  ⟨applyOps_preserves_content ops (Button.new c),
   textApplyOps_preserves_content tops (Text.new tc)⟩

/-- Claim C10: each Button setter modifies only its own designated field
and leaves every other field of the builder unchanged. -/
theorem button_setters_frame (b : Button) (k v : String) (u p : Uri)
    (t i : String) (st : ButtonStyle) :
    ((b.AddArgument k v).m_content = b.m_content ∧
      (b.AddArgument k v).m_iconUri = b.m_iconUri ∧
      (b.AddArgument k v).m_protocolUri = b.m_protocolUri ∧
      (b.AddArgument k v).m_toolTip = b.m_toolTip ∧
      (b.AddArgument k v).m_inputId = b.m_inputId ∧
      (b.AddArgument k v).m_useContextMenuPlacement = b.m_useContextMenuPlacement ∧
      (b.AddArgument k v).m_buttonStyle = b.m_buttonStyle) ∧
    ((b.SetIconUri u).m_content = b.m_content ∧
      (b.SetIconUri u).m_arguments = b.m_arguments ∧
      (b.SetIconUri u).m_protocolUri = b.m_protocolUri ∧
      (b.SetIconUri u).m_toolTip = b.m_toolTip ∧
      (b.SetIconUri u).m_inputId = b.m_inputId ∧
      (b.SetIconUri u).m_useContextMenuPlacement = b.m_useContextMenuPlacement ∧
      (b.SetIconUri u).m_buttonStyle = b.m_buttonStyle) ∧
    ((b.UseProtocolActivation p).m_content = b.m_content ∧
      (b.UseProtocolActivation p).m_arguments = b.m_arguments ∧
      (b.UseProtocolActivation p).m_iconUri = b.m_iconUri ∧
      (b.UseProtocolActivation p).m_toolTip = b.m_toolTip ∧
      (b.UseProtocolActivation p).m_inputId = b.m_inputId ∧
      (b.UseProtocolActivation p).m_useContextMenuPlacement = b.m_useContextMenuPlacement ∧
      (b.UseProtocolActivation p).m_buttonStyle = b.m_buttonStyle) ∧
    ((b.SetToolTip t).m_content = b.m_content ∧
      (b.SetToolTip t).m_arguments = b.m_arguments ∧
      (b.SetToolTip t).m_iconUri = b.m_iconUri ∧
      (b.SetToolTip t).m_protocolUri = b.m_protocolUri ∧
      (b.SetToolTip t).m_inputId = b.m_inputId ∧
      (b.SetToolTip t).m_useContextMenuPlacement = b.m_useContextMenuPlacement ∧
      (b.SetToolTip t).m_buttonStyle = b.m_buttonStyle) ∧
    ((b.SetInputId i).m_content = b.m_content ∧
      (b.SetInputId i).m_arguments = b.m_arguments ∧
      (b.SetInputId i).m_iconUri = b.m_iconUri ∧
      (b.SetInputId i).m_protocolUri = b.m_protocolUri ∧
      (b.SetInputId i).m_toolTip = b.m_toolTip ∧
      (b.SetInputId i).m_useContextMenuPlacement = b.m_useContextMenuPlacement ∧
      (b.SetInputId i).m_buttonStyle = b.m_buttonStyle) ∧
    (b.UseContextMenuPlacement.m_content = b.m_content ∧
      b.UseContextMenuPlacement.m_arguments = b.m_arguments ∧
      b.UseContextMenuPlacement.m_iconUri = b.m_iconUri ∧
      b.UseContextMenuPlacement.m_protocolUri = b.m_protocolUri ∧
      b.UseContextMenuPlacement.m_toolTip = b.m_toolTip ∧
      b.UseContextMenuPlacement.m_inputId = b.m_inputId ∧
      b.UseContextMenuPlacement.m_buttonStyle = b.m_buttonStyle) ∧
    ((b.SetButtonStyle st).m_content = b.m_content ∧
      (b.SetButtonStyle st).m_arguments = b.m_arguments ∧
      (b.SetButtonStyle st).m_iconUri = b.m_iconUri ∧
      (b.SetButtonStyle st).m_protocolUri = b.m_protocolUri ∧
      (b.SetButtonStyle st).m_toolTip = b.m_toolTip ∧
      (b.SetButtonStyle st).m_inputId = b.m_inputId ∧
      (b.SetButtonStyle st).m_useContextMenuPlacement = b.m_useContextMenuPlacement) :=
  ⟨⟨rfl, rfl, rfl, rfl, rfl, rfl, rfl⟩, ⟨rfl, rfl, rfl, rfl, rfl, rfl, rfl⟩,
   ⟨rfl, rfl, rfl, rfl, rfl, rfl, rfl⟩, ⟨rfl, rfl, rfl, rfl, rfl, rfl, rfl⟩,
   ⟨rfl, rfl, rfl, rfl, rfl, rfl, rfl⟩, ⟨rfl, rfl, rfl, rfl, rfl, rfl, rfl⟩,
   ⟨rfl, rfl, rfl, rfl, rfl, rfl, rfl⟩⟩
